import Mathlib

/-!
Shallow embedding of the JustSay local ASR HTTP server
(`src/python/whisper_server.py`) and verification of the behavioural
claims about its model cache, parameter resolver, engine adapters and
HTTP dispatch layer.

Modelling conventions:
* Byte strings (audio payloads, multipart part contents) are modelled as
  Lean `String`s; the opaque loaded model handle is modelled as a `Nat` id.
* Python `None`-able strings are `Option String`; Python string truthiness
  (`None` and `""` are falsy) is `truthyO`.
* The fallible external backends (`faster_whisper.WhisperModel`,
  `funasr.AutoModel`, `base64.b64decode`, `json.loads`,
  `rich_transcription_postprocess`, torch CUDA probing) are parameters of
  the embedding (`ServerEnv`, `WireRequest`); a raised Python exception is
  an `Except.error` carrying the message.
* The global mutable slot (`_model`, `_model_info`) is threaded explicitly
  as a `CacheState` value; a function that mutates it returns the new state.
-/

namespace JustSay

/-- Constant `DEFAULT_SENSEVOICE_MODEL_ID` from whisper_server.py line 22. -/
def DEFAULT_SENSEVOICE_MODEL_ID : String := "FunAudioLLM/SenseVoiceSmall"

/-- Python string truthiness for an optional string: `None` and `""` are falsy. -/
def truthyO : Option String → Bool
  | some s => s != ""
  | none => false

/-- Python `a or b` on optional strings (`None`/`""` falsy). -/
def pyOr (a b : Option String) : Option String :=
  if truthyO a then a else b

/-- Python `a or b` where `b` (and hence the result) is a plain string. -/
def orS (a : Option String) (b : String) : String :=
  match a with
  | some s => if s = "" then b else s
  | none => b

/-- Embedding of `parse_bool` (whisper_server.py lines 80-85).  A `Bool`
dictionary value is represented by the strings `"True"`/`"False"`, on which
`str(value).strip().lower() in ("1","true","yes","on")` agrees with the
Python `isinstance(value, bool)` short-circuit. -/
def parse_bool (value : Option String) (default : Bool) : Bool :=
  match value with
  | none => default
  | some s => ["1", "true", "yes", "on"].contains s.trim.toLower

/-- The global `_model_info` dictionary (whisper_server.py lines 58-65):
the recorded load-key of the resident model, all fields `None` at startup. -/
structure ModelInfo where
  engine : Option String
  model_type : Option String
  sensevoice_model_id : Option String
  device : Option String
  compute_type : Option String
  download_root : Option String
deriving DecidableEq, Repr

/-- The six-field load-key passed to `get_model` (whisper_server.py lines
141-148): the first five parameters are annotated `str`, `download_root`
is `str | None`. -/
structure LoadKey where
  engine : String
  model_type : String
  sensevoice_model_id : String
  device : String
  compute_type : String
  download_root : Option String
deriving DecidableEq, Repr

/-- The global slot: `_model` (opaque handle, `None` when absent) together
with `_model_info`. -/
structure CacheState where
  model : Option Nat
  info : ModelInfo
deriving DecidableEq, Repr

/-- The `_model_info` contents recorded by a successful load of key `k`
(the `_model_info.update({...})` at whisper_server.py lines 179-188). -/
def keyInfo (k : LoadKey) : ModelInfo :=
  { engine := some k.engine
    model_type := some k.model_type
    sensevoice_model_id := some k.sensevoice_model_id
    device := some k.device
    compute_type := some k.compute_type
    download_root := k.download_root }

/-- Startup value of the slot: `_model = None` and all `_model_info`
fields `None` (whisper_server.py lines 56-65). -/
def initState : CacheState :=
  { model := none
    info := { engine := none, model_type := none, sensevoice_model_id := none
              device := none, compute_type := none, download_root := none } }

/-- The reload test of `get_model` (whisper_server.py lines 153-161):
reload is needed iff no model is resident or some load-key field differs
from the recorded `_model_info` by exact equality. -/
def need_reload (st : CacheState) (k : LoadKey) : Bool :=
  st.model.isNone
  || st.info.engine != some k.engine
  || st.info.model_type != some k.model_type
  || st.info.sensevoice_model_id != some k.sensevoice_model_id
  || st.info.device != some k.device
  || st.info.compute_type != some k.compute_type
  || st.info.download_root != k.download_root

/-- Embedding of `get_model` (whisper_server.py lines 141-191).  `loader`
abstracts `load_faster_whisper_model` / `load_sensevoice_model` (both
dispatched on `k.engine` in the source); an exception raised by the
backend constructor is `Except.error`.  The returned components are the
Python return value (or the propagated exception), the slot state after
the call, and an instrumentation flag recording whether the backend-load
branch (`if need_reload:`) was executed.  On a load failure the assignment
to `_model` and the `_model_info.update` never execute, so the slot state
is returned unchanged. -/
def get_model (loader : LoadKey → Except String Nat) (k : LoadKey) (st : CacheState) :
    Except String Nat × CacheState × Bool :=
  if need_reload st k then
    match loader k with
    | .error e => (.error e, st, true)
    | .ok m => (.ok m, { model := some m, info := keyInfo k }, true)
  else
    (.ok (st.model.getD 0), st, false)

/-- The global `_runtime_policy` dictionary (whisper_server.py lines
66-77), immutable after `main` applies the CLI flags. -/
structure RuntimePolicy where
  engine : String
  lock_model : Bool
  lock_device_compute : Bool
  lock_language : Bool
  default_model_type : String
  default_language : Option String
  sensevoice_model_id : String
  sensevoice_use_itn : Bool
  device : String
  compute_type : String
deriving DecidableEq, Repr

/-- Startup value of `_runtime_policy` (whisper_server.py lines 66-77). -/
def default_runtime_policy : RuntimePolicy :=
  { engine := "faster-whisper"
    lock_model := false
    lock_device_compute := false
    lock_language := false
    default_model_type := "tiny"
    default_language := none
    sensevoice_model_id := DEFAULT_SENSEVOICE_MODEL_ID
    sensevoice_use_itn := true
    device := "cpu"
    compute_type := "int8" }

/-- Test whether the first character list begins the second. -/
def charsLead : List Char → List Char → Bool
  | [], _ => true
  | _ :: _, [] => false
  | p :: ps, c :: cs => p == c && charsLead ps cs

/-- Test whether the first character list occurs inside the second. -/
def charsWithin (pat : List Char) : List Char → Bool
  | [] => pat.isEmpty
  | c :: cs => charsLead pat (c :: cs) || charsWithin pat cs

/-- Python `needle in haystack` on strings. -/
def strContains (hay needle : String) : Bool :=
  charsWithin needle.data hay.data

/-- Python `s.startswith(p)`. -/
def py_startswith (s p : String) : Bool :=
  charsLead p.data s.data

/-- Embedding of `resolve_sensevoice_device` (whisper_server.py lines
120-138).  `cuda_ok` abstracts `torch.cuda.is_available()`; a probe that
raises is the same as one that reports unavailable (both fall back to
`"cpu"`). -/
def resolve_sensevoice_device (cuda_ok : Bool) (device : String) : String :=
  if device ≠ "cuda" then "cpu"
  else if cuda_ok then "cuda:0"
  else "cpu"

/-- Request parameters as seen by `transcribe_audio` (the `params` dict of
`name → [value]` lists).  An outer `none` means the key is absent from the
dict.  For `language` and `download_root` the stored single-element list
may itself hold `None` (the JSON path stores `data.get("language")` /
`data.get("download_root")` with no default), hence the nested option; the
remaining fields hold plain strings on every decode path. -/
structure Params where
  engine : Option String := none
  model : Option String := none
  sensevoice_model_id : Option String := none
  sensevoice_use_itn : Option String := none
  device : Option String := none
  compute_type : Option String := none
  language : Option (Option String) := none
  download_root : Option (Option String) := none

/-- `default_engine` of `transcribe_audio` (whisper_server.py line 424):
`_model_info["engine"] or _runtime_policy["engine"] or "faster-whisper"`. -/
def default_engine (pol : RuntimePolicy) (info : ModelInfo) : String :=
  orS info.engine (orS (some pol.engine) "faster-whisper")

/-- `default_model_type` of `transcribe_audio` (whisper_server.py line 425). -/
def default_model_type (pol : RuntimePolicy) (info : ModelInfo) : String :=
  orS info.model_type (orS (some pol.default_model_type) "tiny")

/-- `default_sensevoice_model_id` of `transcribe_audio` (whisper_server.py
line 426): `_model_info[...] or _runtime_policy[...]`. -/
def default_sensevoice_model_id (pol : RuntimePolicy) (info : ModelInfo) : String :=
  orS info.sensevoice_model_id pol.sensevoice_model_id

/-- `default_device` of `transcribe_audio` (whisper_server.py line 427). -/
def default_device (pol : RuntimePolicy) (info : ModelInfo) : String :=
  orS info.device (orS (some pol.device) "cpu")

/-- `default_compute_type` of `transcribe_audio` (whisper_server.py line 428). -/
def default_compute_type (pol : RuntimePolicy) (info : ModelInfo) : String :=
  orS info.compute_type (orS (some pol.compute_type) "int8")

/-- The effective per-request parameter set produced by the resolution
section of `transcribe_audio`. -/
structure ResolvedParams where
  engine : String
  model_type : String
  sensevoice_model_id : String
  sensevoice_use_itn : Bool
  device : String
  compute_type : String
  language : Option String
  download_root : Option String
deriving DecidableEq, Repr

/-- Parameter-resolution section of `WhisperHandler.transcribe_audio`
(whisper_server.py lines 424-470): per-slot defaults from the resident
model's recorded key falling back to the runtime policy and hard-coded
literals, client values from `params`, the three policy locks, and the
SenseVoice device coercion. -/
def resolve_transcribe (pol : RuntimePolicy) (info : ModelInfo) (cuda_ok : Bool)
    (p : Params) : ResolvedParams :=
  let d_engine := default_engine pol info
  let d_model_type := default_model_type pol info
  let d_svid := default_sensevoice_model_id pol info
  let d_device := default_device pol info
  let d_compute := default_compute_type pol info
  let d_language := pol.default_language
  let d_itn := pol.sensevoice_use_itn
  let requested_engine := p.engine.getD d_engine
  let requested_model_type := p.model.getD d_model_type
  let requested_svid := p.sensevoice_model_id.getD d_svid
  let requested_itn :=
    match p.sensevoice_use_itn with
    | some s => parse_bool (some s) d_itn
    | none => d_itn
  let requested_device := p.device.getD d_device
  let requested_compute := p.compute_type.getD d_compute
  let requested_language :=
    match p.language with
    | some v => v
    | none => d_language
  let download_root :=
    match p.download_root with
    | some v => v
    | none => none
  let engine := if pol.lock_model then d_engine else requested_engine
  let model_type := if pol.lock_model then d_model_type else requested_model_type
  let svid := if pol.lock_model then d_svid else requested_svid
  let itn := if pol.lock_model then d_itn else requested_itn
  let language := if pol.lock_language then d_language else requested_language
  let requested_device2 := if pol.lock_device_compute then pol.device else requested_device
  let compute_type := if pol.lock_device_compute then pol.compute_type else requested_compute
  let device :=
    if engine = "sensevoice" then
      if py_startswith (resolve_sensevoice_device cuda_ok requested_device2) "cuda"
      then "cuda" else "cpu"
    else requested_device2
  { engine := engine
    model_type := model_type
    sensevoice_model_id := svid
    sensevoice_use_itn := itn
    device := device
    compute_type := compute_type
    language := language
    download_root := download_root }

/-- What the faster-whisper backend (`model.transcribe`) reports:
segment texts in order and the detected-language field of `info`. -/
structure FWBackendResult where
  segments : List String
  language : String
deriving DecidableEq, Repr

/-- What the SenseVoice backend (`model.generate` plus the item extraction
of whisper_server.py lines 324-334 and 337-339) reports: the raw item text
and `item.get("language") or item.get("lang")`. -/
structure SVBackendResult where
  text_raw : String
  detected_language : Option String
deriving DecidableEq, Repr

/-- Engine-adapter output consumed by the response builder (`payload`). -/
structure TranscribePayload where
  text : String
  language : Option String
deriving DecidableEq, Repr

/-- The explicit `options["language"]` entry computed by
`transcribe_with_faster_whisper` (whisper_server.py lines 298-300):
present exactly when the hint is truthy and not the literal `"auto"`. -/
def fw_language_arg (language : Option String) : Option String :=
  match language with
  | some s => if s ≠ "" ∧ s ≠ "auto" then some s else none
  | none => none

/-- Embedding of `transcribe_with_faster_whisper` (whisper_server.py lines
297-309).  `backend` abstracts `model.transcribe`, applied to the explicit
language option (or its absence); the result pairs that passed option with
the payload, whose text is the per-segment-stripped, space-joined, finally
stripped concatenation. -/
def transcribe_with_faster_whisper
    (backend : Option String → Except String FWBackendResult)
    (language : Option String) : Except String (Option String × TranscribePayload) :=
  match backend (fw_language_arg language) with
  | .error e => .error e
  | .ok info =>
      .ok (fw_language_arg language,
        { text := (String.intercalate " " (info.segments.map String.trim)).trim
          language := some info.language })

/-- The `final_language` value computed by `transcribe_with_sensevoice`
(whisper_server.py line 315): the hint when truthy and not `"auto"`, and
the literal `"auto"` otherwise. -/
def sv_final_language (language : Option String) : String :=
  match language with
  | some s => if s ≠ "" ∧ s ≠ "auto" then s else "auto"
  | none => "auto"

/-- Embedding of `transcribe_with_sensevoice` (whisper_server.py lines
312-341).  `backend` abstracts `model.generate` (taking the `language` and
`use_itn` arguments it is passed) plus the result-item extraction;
`postproc` abstracts `rich_transcription_postprocess`, which is invoked
only on non-empty raw text.  The result pairs the language argument passed
to `model.generate` with the payload. -/
def transcribe_with_sensevoice
    (backend : String → Bool → Except String SVBackendResult)
    (postproc : String → String)
    (language : Option String) (use_itn : Bool) :
    Except String (String × TranscribePayload) :=
  match backend (sv_final_language language) use_itn with
  | .error e => .error e
  | .ok r =>
      .ok (sv_final_language language,
        { text := if r.text_raw ≠ "" then postproc r.text_raw else ""
          language := pyOr r.detected_language (some (sv_final_language language)) })

/-- A `/transcribe`-style JSON response dictionary.  `text` and `success`
are present in every such dictionary the server builds; each other field
is `none` when its key is absent.  The `language` key, when present, may
hold JSON `null` (inner `none`). -/
structure TResponse where
  success : Bool
  text : String
  error : Option String := none
  language : Option (Option String) := none
  engine : Option String := none
  model : Option String := none
  device : Option String := none
  compute_type : Option String := none
deriving DecidableEq, Repr

/-- The `model_name` echoed by `transcribe_audio` (whisper_server.py lines
501 and 506): `model_type` for faster-whisper, else the SenseVoice id. -/
def model_name (R : ResolvedParams) : String :=
  if R.engine = "faster-whisper" then R.model_type else R.sensevoice_model_id

/-- The failure dictionary of `transcribe_audio` (whisper_server.py lines
513-523): `success:false`, empty text, the exception message, the resolved
echo fields, and the resolved language. -/
def fail_resp (R : ResolvedParams) (e : String) : TResponse :=
  { success := false
    text := ""
    error := some e
    engine := some R.engine
    model := some (model_name R)
    device := some R.device
    compute_type := some R.compute_type
    language := some R.language }

/-- The success dictionary of `transcribe_audio` (whisper_server.py lines
493-504): the payload text and the engine-reported language, plus the
resolved echo fields. -/
def success_resp (R : ResolvedParams) (payload : TranscribePayload) : TResponse :=
  { success := true
    text := payload.text
    language := some payload.language
    engine := some R.engine
    model := some (model_name R)
    device := some R.device
    compute_type := some R.compute_type }

/-- The load-key `transcribe_audio` passes to `get_model`
(whisper_server.py lines 479-486). -/
def load_key_of (R : ResolvedParams) : LoadKey :=
  { engine := R.engine
    model_type := R.model_type
    sensevoice_model_id := R.sensevoice_model_id
    device := R.device
    compute_type := R.compute_type
    download_root := R.download_root }

/-- The externally provided collaborators of the server, fixed for the
duration of one request: the runtime policy, the CUDA probe outcome, the
backend model constructors (as one loader keyed on the load-key), the two
inference backends, the SenseVoice post-processor and base64 decoding. -/
structure ServerEnv where
  pol : RuntimePolicy
  cuda_ok : Bool
  loader : LoadKey → Except String Nat
  fw_backend : Option String → Except String FWBackendResult
  sv_backend : String → Bool → Except String SVBackendResult
  postproc : String → String
  b64 : String → Except String String

/-- Record of the engine-adapter call `transcribe_audio` made: which
engine branch ran, the language hint handed to the adapter, and for the
SenseVoice branch the `use_itn` flag. -/
structure EngineInvocation where
  engine : String
  language : Option String
  use_itn : Option Bool
deriving DecidableEq, Repr

/-- Result of one `transcribe_audio` call: the response dictionary, the
slot state after the call, whether `get_model` executed its backend-load
branch, and the engine-adapter call made (if control reached one). -/
structure TranscribeOutcome where
  resp : TResponse
  st : CacheState
  load_attempted : Bool
  invocation : Option EngineInvocation

/-- Embedding of `WhisperHandler.transcribe_audio` (whisper_server.py
lines 421-528): resolve the effective parameters, acquire the model (a
load failure is caught by the `except` and reported as a failure
dictionary, the slot left as `get_model` returned it), then run the
selected engine adapter (an inference failure is likewise caught).  The
temporary audio file, `ensure_download_env` and timing are I/O effects
with no bearing on the modelled state and are not represented; the audio
bytes are passed through to keep the call shape. -/
def transcribe_audio (env : ServerEnv) (st : CacheState) (_audio_data : String)
    (p : Params) : TranscribeOutcome :=
  let R := resolve_transcribe env.pol st.info env.cuda_ok p
  match get_model env.loader (load_key_of R) st with
  | (.error e, st1, loaded) =>
      { resp := fail_resp R e, st := st1, load_attempted := loaded, invocation := none }
  | (.ok _m, st1, loaded) =>
      if R.engine = "sensevoice" then
        match transcribe_with_sensevoice env.sv_backend env.postproc R.language
            R.sensevoice_use_itn with
        | .error e =>
            { resp := fail_resp R e, st := st1, load_attempted := loaded
              invocation := some { engine := R.engine, language := R.language
                                   use_itn := some R.sensevoice_use_itn } }
        | .ok (_arg, payload) =>
            { resp := success_resp R payload, st := st1, load_attempted := loaded
              invocation := some { engine := R.engine, language := R.language
                                   use_itn := some R.sensevoice_use_itn } }
      else
        match transcribe_with_faster_whisper env.fw_backend R.language with
        | .error e =>
            { resp := fail_resp R e, st := st1, load_attempted := loaded
              invocation := some { engine := R.engine, language := R.language
                                   use_itn := none } }
        | .ok (_arg, payload) =>
            { resp := success_resp R payload, st := st1, load_attempted := loaded
              invocation := some { engine := R.engine, language := R.language
                                   use_itn := none } }

/-- A parsed JSON request body: the string-valued keys the server reads
(`data.get(...)`).  `none` means the key is absent.  A `sensevoice_use_itn`
boolean is carried as the string `"True"`/`"False"` (see `parse_bool`). -/
structure JsonData where
  audio : Option String := none
  engine : Option String := none
  model : Option String := none
  sensevoice_model_id : Option String := none
  sensevoice_use_itn : Option String := none
  device : Option String := none
  compute_type : Option String := none
  language : Option String := none
  download_root : Option String := none

/-- The `params` dict built by `transcribe_from_json` (whisper_server.py
lines 538-547): every key is present, the first six pre-filled with the
runtime-policy default when the client omitted them, while `language` and
`download_root` store `data.get(...)` with no default (possibly `None`). -/
def params_of_json (pol : RuntimePolicy) (data : JsonData) : Params :=
  { engine := some (data.engine.getD pol.engine)
    model := some (data.model.getD pol.default_model_type)
    sensevoice_model_id := some (data.sensevoice_model_id.getD pol.sensevoice_model_id)
    sensevoice_use_itn :=
      some (data.sensevoice_use_itn.getD (if pol.sensevoice_use_itn then "True" else "False"))
    device := some (data.device.getD pol.device)
    compute_type := some (data.compute_type.getD pol.compute_type)
    language := some data.language
    download_root := some data.download_root }

/-- Embedding of `WhisperHandler.transcribe_from_json` (whisper_server.py
lines 530-548): a missing or falsy `"audio"` key short-circuits to the
`Missing audio field` dictionary without touching the slot; otherwise the
base64 payload is decoded (a decode exception propagates to the caller)
and `transcribe_audio` runs on the pre-filled params. -/
def transcribe_from_json (env : ServerEnv) (st : CacheState) (data : JsonData) :
    Except String TranscribeOutcome :=
  if truthyO data.audio = false then
    .ok { resp := { success := false, text := "", error := some "Missing audio field" }
          st := st, load_attempted := false, invocation := none }
  else
    match env.b64 (data.audio.getD "") with
    | .error e => .error e
    | .ok audio_bytes => .ok (transcribe_audio env st audio_bytes (params_of_json env.pol data))

/-- One boundary-delimited chunk of a multipart body, after the byte-level
splitting of whisper_server.py lines 557-570: whether it contains a
`Content-Disposition` header, whether the blank-line header terminator was
found, the form name matched by the `name="..."` pattern (if any), whether
the headers contain `filename=`, and the part content. -/
structure MultipartPart where
  has_disposition : Bool
  header_ok : Bool
  name : Option String
  has_filename : Bool
  content : String
deriving DecidableEq, Repr

/-- Python dict assignment `d[k] = v` observed through lookups. -/
def dset (d : String → Option String) (k v : String) : String → Option String :=
  fun q => if q = k then some v else d q

/-- Body of the part loop of `handle_multipart_transcribe`
(whisper_server.py lines 561-580): skip parts without a disposition
header, a header terminator or a form name; record an `audio`-named or
filename-carrying part as the audio payload; map any other named part to
a string parameter (dict assignment, so a later part overwrites). -/
def multipart_step (acc : Option String × (String → Option String))
    (part : MultipartPart) : Option String × (String → Option String) :=
  if part.has_disposition = false then acc
  else if part.header_ok = false then acc
  else
    match part.name with
    | none => acc
    | some name =>
        if name = "audio" ∨ part.has_filename then (some part.content, acc.2)
        else (acc.1, dset acc.2 name part.content)

/-- The audio payload and parameter dict accumulated by the part loop of
`handle_multipart_transcribe` over the split body. -/
def multipart_extract (parts : List MultipartPart) :
    Option String × (String → Option String) :=
  parts.foldl multipart_step (none, fun _ => none)

/-- Lifting of a `name → first value` dict (multipart parameters and
`parse_qs` query parameters alike) to the `Params` record read by
`transcribe_audio`; a stored value is always a plain string on these
paths. -/
def params_of_dict (d : String → Option String) : Params :=
  { engine := d "engine"
    model := d "model"
    sensevoice_model_id := d "sensevoice_model_id"
    sensevoice_use_itn := d "sensevoice_use_itn"
    device := d "device"
    compute_type := d "compute_type"
    language := (d "language").map some
    download_root := (d "download_root").map some }

/-- Embedding of `WhisperHandler.handle_multipart_transcribe`
(whisper_server.py lines 550-585): decode the parts, fail with the
`No audio file in request` dictionary when the audio payload is absent or
empty (Python truthiness on bytes), else transcribe. -/
def handle_multipart_transcribe (env : ServerEnv) (st : CacheState)
    (parts : List MultipartPart) : TranscribeOutcome :=
  let r := multipart_extract parts
  if truthyO r.1 = false then
    { resp := { success := false, text := "", error := some "No audio file in request" }
      st := st, load_attempted := false, invocation := none }
  else
    transcribe_audio env st (r.1.getD "") (params_of_dict r.2)

/-- A JSON response body the server serializes with `send_json`. -/
inductive HttpBody where
  /-- A transcribe-style dictionary (`success`, `text`, ...). -/
  | transcribe (r : TResponse)
  /-- The `{"error": ...}` dictionary (404 / unsupported content type). -/
  | errorOnly (error : String)
  /-- The bare `{"success": ...}` dictionary (`/model/unload`). -/
  | simple (success : Bool)
  /-- The `/model/load` success dictionary. -/
  | loadOk (engine : String) (model : String) (sensevoice_use_itn : Bool)
  /-- The `{"success": false, "error": ...}` dictionary (`/model/load` 500). -/
  | loadErr (error : String)
deriving DecidableEq, Repr

/-- An HTTP response: status code plus serialized JSON body. -/
structure HttpResponse where
  status : Nat
  body : HttpBody
deriving DecidableEq, Repr

/-- A `/transcribe` POST as seen after header reading: the declared
content type, the `json.loads` outcome for the body (consulted only on
the JSON branch), the boundary-split multipart parts (multipart branch),
and the raw body bytes plus `parse_qs` query dict (raw-audio branch). -/
structure WireRequest where
  content_type : String
  json_parse : Except String JsonData
  parts : List MultipartPart
  query : String → Option String
  raw_body : String


/-- Embedding of `WhisperHandler.handle_transcribe` (whisper_server.py
lines 398-419): select the decoder by content-type substring match
(multipart first, then JSON, then raw audio); a dictionary produced by the
selected path is sent with status 200, an unsupported content type gets
the 400 `{"error": ...}` body, and any exception that escapes the
selected path (malformed JSON, base64 failure) is caught by the
`except` clause and sent as status 500 with
`{"success": false, "error": ..., "text": ""}`. -/
def handle_transcribe (env : ServerEnv) (st : CacheState) (req : WireRequest) :
    HttpResponse × CacheState :=
  if strContains req.content_type "multipart/form-data" then
    let o := handle_multipart_transcribe env st req.parts
    ({ status := 200, body := .transcribe o.resp }, o.st)
  else if strContains req.content_type "application/json" then
    match req.json_parse with
    | .error e =>
        ({ status := 500, body := .transcribe { success := false, text := "", error := some e } }, st)
    | .ok data =>
        match transcribe_from_json env st data with
        | .error e =>
            ({ status := 500, body := .transcribe { success := false, text := "", error := some e } }, st)
        | .ok o => ({ status := 200, body := .transcribe o.resp }, o.st)
  else if strContains req.content_type "audio/"
      || strContains req.content_type "application/octet-stream" then
    let o := transcribe_audio env st req.raw_body (params_of_dict req.query)
    ({ status := 200, body := .transcribe o.resp }, o.st)
  else
    ({ status := 400, body := .errorOnly ("Unsupported content type: " ++ req.content_type) }, st)

/-- Embedding of `WhisperHandler.handle_load_model` (whisper_server.py
lines 587-626): resolve each parameter as the client value with the
runtime-policy value as dictionary default (no lock flag is consulted),
apply the SenseVoice device coercion, force a `get_model`, and answer 200
with the echo dictionary on success or 500 with
`{"success": false, "error": ...}` when body parsing or the load raises. -/
def handle_load_model (env : ServerEnv) (st : CacheState)
    (body_parse : Except String JsonData) : HttpResponse × CacheState :=
  match body_parse with
  | .error e => ({ status := 500, body := .loadErr e }, st)
  | .ok data =>
      let engine := data.engine.getD env.pol.engine
      let model_type := data.model.getD env.pol.default_model_type
      let sensevoice_model_id := data.sensevoice_model_id.getD env.pol.sensevoice_model_id
      let sensevoice_use_itn :=
        match data.sensevoice_use_itn with
        | some s => parse_bool (some s) env.pol.sensevoice_use_itn
        | none => env.pol.sensevoice_use_itn
      let device0 := data.device.getD env.pol.device
      let compute_type := data.compute_type.getD env.pol.compute_type
      let download_root := data.download_root
      let device :=
        if engine = "sensevoice" then
          if py_startswith (resolve_sensevoice_device env.cuda_ok device0) "cuda"
          then "cuda" else "cpu"
        else device0
      match get_model env.loader
          { engine := engine, model_type := model_type
            sensevoice_model_id := sensevoice_model_id, device := device
            compute_type := compute_type, download_root := download_root } st with
      | (.error e, st1, _) => ({ status := 500, body := .loadErr e }, st1)
      | (.ok _m, st1, _) =>
          ({ status := 200
             body := .loadOk engine
               (if engine = "faster-whisper" then model_type else sensevoice_model_id)
               sensevoice_use_itn }, st1)

/-- Embedding of `handle_unload_model`'s state effect (whisper_server.py
lines 628-642): the slot is unconditionally reset to the startup value and
`{"success": true}` is sent with status 200. -/
def handle_unload_model (_st : CacheState) : HttpResponse × CacheState :=
  ({ status := 200, body := .simple true }, initState)

/-- Slot consistency: the model handle is present exactly when every
recorded load-key field other than `download_root` is non-null. -/
def slot_invariant (s : CacheState) : Prop :=
  s.model.isSome =
    (s.info.engine.isSome && s.info.model_type.isSome
      && s.info.sensevoice_model_id.isSome && s.info.device.isSome
      && s.info.compute_type.isSome)

/-- A backend constructor that always succeeds with handle 1. -/
def okLoader : LoadKey → Except String Nat := fun _ => .ok 1

/-- A backend constructor that always raises. -/
def errLoader : LoadKey → Except String Nat := fun _ => .error "boom"

/-- A faster-whisper load-key for the `tiny` model on CPU. -/
def keyA : LoadKey :=
  { engine := "faster-whisper", model_type := "tiny"
    sensevoice_model_id := DEFAULT_SENSEVOICE_MODEL_ID
    device := "cpu", compute_type := "int8", download_root := none }

/-- A load-key differing from `keyA` in its `model_type`. -/
def keyB : LoadKey := { keyA with model_type := "base" }

/-- A SenseVoice load-key on CPU. -/
def svKey : LoadKey := { keyA with engine := "sensevoice" }

/-- A slot holding a model loaded under `keyA`. -/
def stA : CacheState := { model := some 1, info := keyInfo keyA }

/-- A slot holding a model loaded under the SenseVoice key `svKey`. -/
def stSV : CacheState := { model := some 3, info := keyInfo svKey }

/-- A faster-whisper backend producing no segments. -/
def fwBack0 : Option String → Except String FWBackendResult :=
  fun _ => .ok { segments := [], language := "" }

/-- A faster-whisper backend reporting detected language `zh`. -/
def fwBackZh : Option String → Except String FWBackendResult :=
  fun _ => .ok { segments := ["hi"], language := "zh" }

/-- A SenseVoice backend producing empty text and no detected language. -/
def svBack0 : String → Bool → Except String SVBackendResult :=
  fun _ _ => .ok { text_raw := "", detected_language := none }

/-- An environment with the startup policy, no CUDA, an always-succeeding
loader and trivial backends. -/
def envBase : ServerEnv :=
  { pol := default_runtime_policy
    cuda_ok := false
    loader := okLoader
    fw_backend := fwBack0
    sv_backend := svBack0
    postproc := id
    b64 := fun s => .ok s }

/-- An environment whose backend constructor always raises. -/
def envFail : ServerEnv := { envBase with loader := errLoader }

/-- An environment with language locked to default `en` and a
faster-whisper backend that detects `zh`. -/
def envLockLang : ServerEnv :=
  { envBase with
    pol := { default_runtime_policy with lock_language := true, default_language := some "en" }
    fw_backend := fwBackZh }

/-- An environment whose policy sets `lock_model`. -/
def envLockModel : ServerEnv :=
  { envBase with pol := { default_runtime_policy with lock_model := true } }

/-- The locked-language environment with a failing backend constructor. -/
def envLockLangFail : ServerEnv := { envLockLang with loader := errLoader }

/-- Client params supplying only `language=fr`. -/
def pLangFr : Params := { language := some (some "fr") }

/-- A `/model/load` body supplying only `engine=sensevoice`. -/
def dataEngineSV : JsonData := { engine := some "sensevoice" }

/-- A raw-audio `/transcribe` request with an empty query string. -/
def reqRaw : WireRequest :=
  { content_type := "audio/wav"
    json_parse := .error "json body not read on this path"
    parts := []
    query := fun _ => none
    raw_body := "RIFF" }

/-- A JSON `/transcribe` request whose body fails to parse. -/
def reqBadJson : WireRequest :=
  { content_type := "application/json"
    json_parse := .error "Expecting value: line 1 column 1 (char 0)"
    parts := []
    query := fun _ => none
    raw_body := "\x7b" }

/-- A JSON `/transcribe` request whose parsed body has no `audio` key. -/
def reqNoAudio : WireRequest :=
  { content_type := "application/json"
    json_parse := .ok { language := some "en" }
    parts := []
    query := fun _ => none
    raw_body := "" }

/-- A multipart part carrying the audio payload. -/
def partAudio : MultipartPart :=
  { has_disposition := true, header_ok := true, name := some "audio"
    has_filename := true, content := "RIFF" }

/-- A multipart part with form name `language` and content `en`. -/
def partLangEn : MultipartPart :=
  { has_disposition := true, header_ok := true, name := some "language"
    has_filename := false, content := "en" }

/-- A multipart part with form name `language` and content `fr`. -/
def partLangFr : MultipartPart :=
  { has_disposition := true, header_ok := true, name := some "language"
    has_filename := false, content := "fr" }

/-- A multipart body with a duplicated `language` field (`en` before `fr`). -/
def partsDup : List MultipartPart := [partAudio, partLangEn, partLangFr]

/-- Eligibility of a part to be recorded as the audio payload by the
multipart loop: not skipped, and named `audio` or carrying a filename. -/
def part_is_audio (part : MultipartPart) : Bool :=
  part.has_disposition && part.header_ok && part.name.isSome
    && (part.name == some "audio" || part.has_filename)

/-- Eligibility of a part to set the string parameter `n`: not skipped,
named `n`, and not recorded as audio. -/
def part_param_named (n : String) (part : MultipartPart) : Bool :=
  part.has_disposition && part.header_ok && part.name == some n
    && !(n == "audio" || part.has_filename)

lemma need_reload_eq_true_iff (st : CacheState) (k : LoadKey) :
    need_reload st k = true ↔
      (st.model = none ∨ st.info.engine ≠ some k.engine ∨
        st.info.model_type ≠ some k.model_type ∨
        st.info.sensevoice_model_id ≠ some k.sensevoice_model_id ∨
        st.info.device ≠ some k.device ∨
        st.info.compute_type ≠ some k.compute_type ∨
        st.info.download_root ≠ k.download_root) := by
  simp [need_reload, Option.isNone_iff_eq_none, bne_iff_ne, or_assoc]

lemma need_reload_keyInfo (m : Nat) (k : LoadKey) :
    need_reload { model := some m, info := keyInfo k } k = false := by
  simp [need_reload, keyInfo]

/-- C1: if backend model construction raises during `get_model`, the slot
keeps exactly the previous model handle and full load-key (in particular
`currentKey()` is unchanged when a model was resident), and the exception
propagates to the caller. -/
theorem load_failure_leaves_slot (loader : LoadKey → Except String Nat)
    (k : LoadKey) (st : CacheState) (e : String)
    (hfail : loader k = .error e) (hneed : need_reload st k = true) :
    get_model loader k st = (.error e, st, true) := by
  rw [get_model, if_pos hneed, hfail]

theorem load_failure_leaves_slot_witness :
    errLoader keyB = .error "boom" ∧ need_reload stA keyB = true ∧
    get_model errLoader keyB stA = (.error "boom", stA, true) :=
  ⟨rfl, by decide, load_failure_leaves_slot errLoader keyB stA "boom" rfl (by decide)⟩

/-- C4: after a successful `get_model` call for key `k`, an immediately
repeated call with the same key performs no backend load and returns the
cached handle and unchanged slot; and in general a call executes its
backend-load branch iff no model is resident or some of the six load-key
fields differs from the recorded slot key by exact equality. -/
theorem acquire_twice_single_load (loader : LoadKey → Except String Nat)
    (k : LoadKey) (st : CacheState) (m : Nat) (st1 : CacheState) (b : Bool)
    (h : get_model loader k st = (.ok m, st1, b)) :
    get_model loader k st1 = (.ok m, st1, false) ∧
    (b = true ↔ (st.model = none ∨ st.info.engine ≠ some k.engine ∨
      st.info.model_type ≠ some k.model_type ∨
      st.info.sensevoice_model_id ≠ some k.sensevoice_model_id ∨
      st.info.device ≠ some k.device ∨
      st.info.compute_type ≠ some k.compute_type ∨
      st.info.download_root ≠ k.download_root)) := by
  by_cases hn : need_reload st k = true
  · rw [get_model, if_pos hn] at h
    cases hl : loader k with
    | error e => rw [hl] at h; simp at h
    | ok m2 =>
        rw [hl] at h
        simp only [Prod.mk.injEq, Except.ok.injEq] at h
        obtain ⟨hm, hst, hb⟩ := h
        subst hm; subst hst
        refine ⟨by simp [get_model, need_reload_keyInfo], ?_⟩
        rw [← hb]
        simpa using (need_reload_eq_true_iff st k).mp hn
  · rw [get_model, if_neg hn] at h
    simp only [Prod.mk.injEq, Except.ok.injEq] at h
    obtain ⟨hm, hst, hb⟩ := h
    subst hst
    have hdisj : ¬(st.model = none ∨ st.info.engine ≠ some k.engine ∨
        st.info.model_type ≠ some k.model_type ∨
        st.info.sensevoice_model_id ≠ some k.sensevoice_model_id ∨
        st.info.device ≠ some k.device ∨
        st.info.compute_type ≠ some k.compute_type ∨
        st.info.download_root ≠ k.download_root) :=
      fun hdj => hn ((need_reload_eq_true_iff st k).mpr hdj)
    refine ⟨by rw [get_model, if_neg hn, hm], iff_of_false (by simp [← hb]) hdisj⟩

theorem acquire_twice_single_load_witness :
    get_model okLoader keyA initState = (.ok 1, stA, true) ∧
    get_model okLoader keyA stA = (.ok 1, stA, false) :=
  ⟨rfl,
    (acquire_twice_single_load okLoader keyA initState 1 stA true rfl).1⟩

/-- C9: the slot consistency invariant (handle present iff every recorded
load-key field except `download_root` is non-null) holds at startup and is
preserved by every `get_model` call, successful or failed, and by every
unload. -/
theorem slot_invariant_preserved :
    slot_invariant initState ∧
    (∀ loader k st, slot_invariant st → slot_invariant (get_model loader k st).2.1) ∧
    (∀ st, slot_invariant (handle_unload_model st).2) := by
  refine ⟨by simp [slot_invariant, initState], ?_, ?_⟩
  · intro loader k st hst
    by_cases hn : need_reload st k = true
    · rw [get_model, if_pos hn]
      cases hl : loader k with
      | error e => simpa using hst
      | ok m => simp [slot_invariant, keyInfo]
    · rw [get_model, if_neg hn]; simpa using hst
  · intro st; simp [handle_unload_model, slot_invariant, initState]

theorem slot_invariant_preserved_witness :
    slot_invariant (get_model errLoader keyB stA).2.1 :=
  slot_invariant_preserved.2.1 errLoader keyB stA (by simp [slot_invariant, stA, keyInfo])

lemma orS_some_ne (v b : String) (h : v ≠ "") : orS (some v) b = v := by
  simp [orS, h]

lemma orS_falsy (a : Option String) (b : String) (h : truthyO a = false) : orS a b = b := by
  cases a with
  | none => rfl
  | some s =>
      have hs : s = "" := by simpa [truthyO] using h
      simp [orS, hs]

lemma resolve_engine_def (pol : RuntimePolicy) (info : ModelInfo) (c : Bool) (p : Params) :
    (resolve_transcribe pol info c p).engine =
      if pol.lock_model then default_engine pol info
      else p.engine.getD (default_engine pol info) := rfl

lemma resolve_model_type_def (pol : RuntimePolicy) (info : ModelInfo) (c : Bool) (p : Params) :
    (resolve_transcribe pol info c p).model_type =
      if pol.lock_model then default_model_type pol info
      else p.model.getD (default_model_type pol info) := rfl

lemma resolve_svid_def (pol : RuntimePolicy) (info : ModelInfo) (c : Bool) (p : Params) :
    (resolve_transcribe pol info c p).sensevoice_model_id =
      if pol.lock_model then default_sensevoice_model_id pol info
      else p.sensevoice_model_id.getD (default_sensevoice_model_id pol info) := rfl

lemma resolve_compute_def (pol : RuntimePolicy) (info : ModelInfo) (c : Bool) (p : Params) :
    (resolve_transcribe pol info c p).compute_type =
      if pol.lock_device_compute then pol.compute_type
      else p.compute_type.getD (default_compute_type pol info) := rfl

lemma resolve_language_def (pol : RuntimePolicy) (info : ModelInfo) (c : Bool) (p : Params) :
    (resolve_transcribe pol info c p).language =
      if pol.lock_language then pol.default_language
      else
        match p.language with
        | some v => v
        | none => pol.default_language := rfl

lemma resolve_device_def (pol : RuntimePolicy) (info : ModelInfo) (c : Bool) (p : Params) :
    (resolve_transcribe pol info c p).device =
      if (if pol.lock_model then default_engine pol info
          else p.engine.getD (default_engine pol info)) = "sensevoice" then
        if py_startswith (resolve_sensevoice_device c
              (if pol.lock_device_compute then pol.device
               else p.device.getD (default_device pol info))) "cuda"
        then "cuda" else "cpu"
      else
        if pol.lock_device_compute then pol.device
        else p.device.getD (default_device pol info) := rfl

/-- C2 (amended): with the model/device locks clear, each of engine, model
identifiers, device and compute precision resolves by the precedence the
code implements — a client-supplied value wins outright; otherwise the
resident model's recorded load-key field wins when truthy; otherwise the
runtime-policy default wins when truthy; otherwise the hard-coded fallback
literal is used (shown for engine).  The device clauses are stated for
requests that resolve to a non-SenseVoice engine, since the SenseVoice
branch afterwards coerces the device through the CUDA probe. -/
theorem resolver_precedence
    (pol : RuntimePolicy) (info : ModelInfo) (c : Bool) (p : Params)
    (ve vm vsv vd vc : String)
    (hm : pol.lock_model = false) (hd : pol.lock_device_compute = false) :
    ((p.engine = some ve → (resolve_transcribe pol info c p).engine = ve) ∧
     (p.model = some vm → (resolve_transcribe pol info c p).model_type = vm) ∧
     (p.sensevoice_model_id = some vsv →
        (resolve_transcribe pol info c p).sensevoice_model_id = vsv) ∧
     (p.compute_type = some vc → (resolve_transcribe pol info c p).compute_type = vc) ∧
     (p.device = some vd → (resolve_transcribe pol info c p).engine ≠ "sensevoice" →
        (resolve_transcribe pol info c p).device = vd)) ∧
    ((p.engine = none → info.engine = some ve → ve ≠ "" →
        (resolve_transcribe pol info c p).engine = ve) ∧
     (p.model = none → info.model_type = some vm → vm ≠ "" →
        (resolve_transcribe pol info c p).model_type = vm) ∧
     (p.sensevoice_model_id = none → info.sensevoice_model_id = some vsv → vsv ≠ "" →
        (resolve_transcribe pol info c p).sensevoice_model_id = vsv) ∧
     (p.compute_type = none → info.compute_type = some vc → vc ≠ "" →
        (resolve_transcribe pol info c p).compute_type = vc) ∧
     (p.device = none → info.device = some vd → vd ≠ "" →
        (resolve_transcribe pol info c p).engine ≠ "sensevoice" →
        (resolve_transcribe pol info c p).device = vd)) ∧
    ((p.engine = none → truthyO info.engine = false → pol.engine ≠ "" →
        (resolve_transcribe pol info c p).engine = pol.engine) ∧
     (p.model = none → truthyO info.model_type = false → pol.default_model_type ≠ "" →
        (resolve_transcribe pol info c p).model_type = pol.default_model_type) ∧
     (p.compute_type = none → truthyO info.compute_type = false → pol.compute_type ≠ "" →
        (resolve_transcribe pol info c p).compute_type = pol.compute_type) ∧
     (p.device = none → truthyO info.device = false → pol.device ≠ "" →
        (resolve_transcribe pol info c p).engine ≠ "sensevoice" →
        (resolve_transcribe pol info c p).device = pol.device)) ∧
    (p.engine = none → truthyO info.engine = false → pol.engine = "" →
        (resolve_transcribe pol info c p).engine = "faster-whisper") := by
  refine ⟨⟨?_, ?_, ?_, ?_, ?_⟩, ⟨?_, ?_, ?_, ?_, ?_⟩, ⟨?_, ?_, ?_, ?_⟩, ?_⟩
  · intro h; simp [resolve_engine_def, hm, h]
  · intro h; simp [resolve_model_type_def, hm, h]
  · intro h; simp [resolve_svid_def, hm, h]
  · intro h; simp [resolve_compute_def, hd, h]
  · intro h hne
    rw [resolve_engine_def] at hne
    rw [resolve_device_def, if_neg hne]
    simp [hd, h]
  · intro h1 h2 h3
    simp only [resolve_engine_def, hm, if_false, Bool.false_eq_true, h1, Option.getD_none]
    rw [default_engine, h2, orS_some_ne _ _ h3]
  · intro h1 h2 h3
    simp only [resolve_model_type_def, hm, if_false, Bool.false_eq_true, h1, Option.getD_none]
    rw [default_model_type, h2, orS_some_ne _ _ h3]
  · intro h1 h2 h3
    simp only [resolve_svid_def, hm, if_false, Bool.false_eq_true, h1, Option.getD_none]
    rw [default_sensevoice_model_id, h2, orS_some_ne _ _ h3]
  · intro h1 h2 h3
    simp only [resolve_compute_def, hd, if_false, Bool.false_eq_true, h1, Option.getD_none]
    rw [default_compute_type, h2, orS_some_ne _ _ h3]
  · intro h1 h2 h3 hne
    rw [resolve_engine_def] at hne
    rw [resolve_device_def, if_neg hne]
    simp only [hd, if_false, Bool.false_eq_true, h1, Option.getD_none]
    rw [default_device, h2, orS_some_ne _ _ h3]
  · intro h1 h2 h3
    simp only [resolve_engine_def, hm, if_false, Bool.false_eq_true, h1, Option.getD_none]
    rw [default_engine, orS_falsy _ _ h2, orS_some_ne _ _ h3]
  · intro h1 h2 h3
    simp only [resolve_model_type_def, hm, if_false, Bool.false_eq_true, h1, Option.getD_none]
    rw [default_model_type, orS_falsy _ _ h2, orS_some_ne _ _ h3]
  · intro h1 h2 h3
    simp only [resolve_compute_def, hd, if_false, Bool.false_eq_true, h1, Option.getD_none]
    rw [default_compute_type, orS_falsy _ _ h2, orS_some_ne _ _ h3]
  · intro h1 h2 h3 hne
    rw [resolve_engine_def] at hne
    rw [resolve_device_def, if_neg hne]
    simp only [hd, if_false, Bool.false_eq_true, h1, Option.getD_none]
    rw [default_device, orS_falsy _ _ h2, orS_some_ne _ _ h3]
  · intro h1 h2 h3
    simp only [resolve_engine_def, hm, if_false, Bool.false_eq_true, h1, Option.getD_none]
    rw [default_engine, orS_falsy _ _ h2, h3]
    simp [orS]

theorem resolver_precedence_witness :
    (resolve_transcribe default_runtime_policy (keyInfo svKey) false {}).engine
      = "sensevoice" :=
  ((resolver_precedence default_runtime_policy (keyInfo svKey) false {}
      "sensevoice" "tiny" DEFAULT_SENSEVOICE_MODEL_ID "cpu" "int8" rfl rfl).2.1.1)
    rfl rfl (by decide)

/-- C2 (counterexample): with a SenseVoice model resident, the startup
policy engine `faster-whisper`, and a raw-audio request supplying no
parameters, the effective engine is the resident key's `sensevoice`, not
the runtime-policy default — the resident load-key outranks the policy
default, contradicting the claimed precedence order. -/
theorem resident_beats_policy_counterexample :
    envBase.pol.engine = "faster-whisper" ∧
    stSV.info.engine = some "sensevoice" ∧
    (handle_transcribe envBase stSV reqRaw).1 =
      { status := 200
        body := .transcribe
          { success := true, text := "", error := none
            language := some (some "auto")
            engine := some "sensevoice"
            model := some DEFAULT_SENSEVOICE_MODEL_ID
            device := some "cpu", compute_type := some "int8" } } ∧
    (handle_transcribe envBase stSV reqRaw).2 = stSV :=
  ⟨rfl, rfl, rfl, rfl⟩

/-- C5 (amended): when the runtime policy locks language, the language
handed to the engine-adapter call is the policy default language whatever
the client supplied, and the failure response echoes that resolved value
in its `language` field; the success response instead echoes the
engine-reported language (see the counterexample). -/
theorem locked_language_resolution (env : ServerEnv) (st : CacheState)
    (audio : String) (p : Params) (hlock : env.pol.lock_language = true) :
    (∀ i, (transcribe_audio env st audio p).invocation = some i →
        i.language = env.pol.default_language) ∧
    ((transcribe_audio env st audio p).resp.success = false →
        (transcribe_audio env st audio p).resp.language
          = some env.pol.default_language) := by
  have hlang : (resolve_transcribe env.pol st.info env.cuda_ok p).language
      = env.pol.default_language := by
    rw [resolve_language_def, if_pos hlock]
  unfold transcribe_audio
  dsimp only
  rcases hg : get_model env.loader
      (load_key_of (resolve_transcribe env.pol st.info env.cuda_ok p)) st
    with ⟨res, st1, loaded⟩
  cases res with
  | error e =>
      refine ⟨fun i hi => by simp at hi, fun _ => by simp [fail_resp, hlang]⟩
  | ok m =>
      dsimp only
      by_cases he : (resolve_transcribe env.pol st.info env.cuda_ok p).engine = "sensevoice"
      · rw [if_pos he]
        rcases ha : transcribe_with_sensevoice env.sv_backend env.postproc
            (resolve_transcribe env.pol st.info env.cuda_ok p).language
            (resolve_transcribe env.pol st.info env.cuda_ok p).sensevoice_use_itn
          with e | pr
        · refine ⟨fun i hi => ?_, fun _ => by simp [fail_resp, hlang]⟩
          simp only [Option.some.injEq] at hi
          rw [← hi, hlang]
        · rcases pr with ⟨arg, payload⟩
          refine ⟨fun i hi => ?_, fun hs => ?_⟩
          · simp only [Option.some.injEq] at hi
            rw [← hi, hlang]
          · simp [success_resp] at hs
      · rw [if_neg he]
        rcases ha : transcribe_with_faster_whisper env.fw_backend
            (resolve_transcribe env.pol st.info env.cuda_ok p).language
          with e | pr
        · refine ⟨fun i hi => ?_, fun _ => by simp [fail_resp, hlang]⟩
          simp only [Option.some.injEq] at hi
          rw [← hi, hlang]
        · rcases pr with ⟨arg, payload⟩
          refine ⟨fun i hi => ?_, fun hs => ?_⟩
          · simp only [Option.some.injEq] at hi
            rw [← hi, hlang]
          · simp [success_resp] at hs

theorem locked_language_resolution_witness :
    (transcribe_audio envLockLangFail initState "a" pLangFr).resp.success = false ∧
    (transcribe_audio envLockLangFail initState "a" pLangFr).resp.language
      = some envLockLangFail.pol.default_language :=
  ⟨rfl, (locked_language_resolution envLockLangFail initState "a" pLangFr rfl).2 rfl⟩

/-- C5 (counterexample): with language locked to default `en` and a client
supplying `language=fr`, a successful transcription's `language` field
echoes the engine-detected `zh`, not the resolved policy default — the
resolved value is echoed only on the failure path. -/
theorem locked_language_echo_counterexample :
    envLockLang.pol.lock_language = true ∧
    envLockLang.pol.default_language = some "en" ∧
    pLangFr.language = some (some "fr") ∧
    (transcribe_audio envLockLang initState "a" pLangFr).resp.success = true ∧
    (transcribe_audio envLockLang initState "a" pLangFr).resp.language
      = some (some "zh") :=
  ⟨rfl, rfl, rfl, rfl, rfl⟩

/-- C6 (amended): the faster-whisper adapter passes no explicit language
for an absent, empty or `"auto"` hint and passes any other hint through
unchanged, while the SenseVoice adapter always passes an explicit
`language` argument, mapping absent/empty/`"auto"` hints to the literal
`"auto"` sentinel and passing any other hint through unchanged; each
adapter invokes its backend on exactly that computed argument. -/
theorem language_arg_resolution (s : String) (h1 : s ≠ "") (h2 : s ≠ "auto")
    (bf : Option String → Except String FWBackendResult)
    (bs : String → Bool → Except String SVBackendResult)
    (pp : String → String) (l : Option String) (itn : Bool) :
    fw_language_arg none = none ∧ fw_language_arg (some "") = none ∧
    fw_language_arg (some "auto") = none ∧ fw_language_arg (some s) = some s ∧
    sv_final_language none = "auto" ∧ sv_final_language (some "") = "auto" ∧
    sv_final_language (some "auto") = "auto" ∧ sv_final_language (some s) = s ∧
    (transcribe_with_faster_whisper bf l).map Prod.fst
      = (bf (fw_language_arg l)).map (fun _ => fw_language_arg l) ∧
    (transcribe_with_sensevoice bs pp l itn).map Prod.fst
      = (bs (sv_final_language l) itn).map (fun _ => sv_final_language l) := by
  refine ⟨rfl, rfl, rfl, ?_, rfl, rfl, rfl, ?_, ?_, ?_⟩
  · simp [fw_language_arg, h1, h2]
  · simp [sv_final_language, h1, h2]
  · cases hb : bf (fw_language_arg l) <;>
      simp [transcribe_with_faster_whisper, hb, Except.map]
  · cases hb : bs (sv_final_language l) itn <;>
      simp [transcribe_with_sensevoice, hb, Except.map]

theorem language_arg_resolution_witness :
    fw_language_arg (some "fr") = some "fr" ∧ sv_final_language (some "fr") = "fr" :=
  ⟨(language_arg_resolution "fr" (by decide) (by decide) fwBack0 svBack0 id none
      true).2.2.2.1,
   (language_arg_resolution "fr" (by decide) (by decide) fwBack0 svBack0 id none
      true).2.2.2.2.2.2.2.1⟩

/-- C6 (counterexample): the SenseVoice adapter, given the hint `"auto"`,
passes the explicit language argument `"auto"` to the backend `generate`
call (the first component of the result records the passed argument). -/
theorem sv_auto_passed_counterexample :
    transcribe_with_sensevoice svBack0 id (some "auto") true =
      .ok ("auto", { text := "", language := some "auto" }) ∧
    sv_final_language (some "auto") = "auto" :=
  ⟨rfl, rfl⟩

/-- C3: the `/model/load` endpoint does not apply the RuntimePolicy lock
rules — with `lock_model` set and the policy engine `faster-whisper`, a
body supplying `engine=sensevoice` still drives the load-key handed to
`get_model`, loading and echoing the client engine. -/
theorem load_model_ignores_lock_model :
    envLockModel.pol.lock_model = true ∧
    envLockModel.pol.engine = "faster-whisper" ∧
    handle_load_model envLockModel initState (.ok dataEngineSV) =
      ({ status := 200, body := .loadOk "sensevoice" DEFAULT_SENSEVOICE_MODEL_ID true },
       { model := some 1
         info := keyInfo
           { engine := "sensevoice", model_type := "tiny"
             sensevoice_model_id := DEFAULT_SENSEVOICE_MODEL_ID, device := "cpu"
             compute_type := "int8", download_root := none } }) :=
  ⟨rfl, rfl, rfl⟩

/-- C7 (amended): exceptions caught inside `transcribe_audio` (model load
and inference failures) surface as HTTP 200 with the `success:false`
dictionary, because the raw-audio branch (like every branch) sends
whatever dictionary `transcribe_audio` returns with status 200; but an
exception escaping the selected decode path — such as a JSON body that
fails to parse — is caught at the dispatch boundary and answered with
HTTP 500 and `{"success": false, "error": ..., "text": ""}`. -/
theorem transcribe_error_status (env : ServerEnv) (st : CacheState)
    (req : WireRequest) (e : String) :
    (strContains req.content_type "multipart/form-data" = false →
     strContains req.content_type "application/json" = true →
     req.json_parse = .error e →
     handle_transcribe env st req =
       ({ status := 500
          body := .transcribe { success := false, text := "", error := some e } }, st)) ∧
    (strContains req.content_type "multipart/form-data" = false →
     strContains req.content_type "application/json" = false →
     (strContains req.content_type "audio/"
       || strContains req.content_type "application/octet-stream") = true →
     handle_transcribe env st req =
       ({ status := 200
          body := .transcribe
            (transcribe_audio env st req.raw_body (params_of_dict req.query)).resp },
        (transcribe_audio env st req.raw_body (params_of_dict req.query)).st)) := by
  constructor
  · intro h1 h2 h3
    simp [handle_transcribe, h1, h2, h3]
  · intro h1 h2 h3
    simp [handle_transcribe, h1, h2, h3]

theorem transcribe_error_status_witness :
    handle_transcribe envBase initState reqBadJson =
      ({ status := 500
         body := .transcribe
           { success := false, text := ""
             error := some "Expecting value: line 1 column 1 (char 0)" } },
       initState) ∧
    (transcribe_audio envFail initState reqRaw.raw_body
        (params_of_dict reqRaw.query)).resp.success = false ∧
    handle_transcribe envFail initState reqRaw =
      ({ status := 200
         body := .transcribe (transcribe_audio envFail initState reqRaw.raw_body
           (params_of_dict reqRaw.query)).resp },
       (transcribe_audio envFail initState reqRaw.raw_body
         (params_of_dict reqRaw.query)).st) :=
  ⟨(transcribe_error_status envBase initState reqBadJson
      "Expecting value: line 1 column 1 (char 0)").1 rfl rfl rfl,
   rfl,
   (transcribe_error_status envFail initState reqRaw "").2 rfl rfl rfl⟩

/-- C7 (counterexample): a `/transcribe` POST with content type
`application/json` whose body fails to parse is answered with HTTP status
500 (not 200), refuting that processing failures never yield an HTTP
error status. -/
theorem bad_json_gets_500 :
    (handle_transcribe envBase initState reqBadJson).1.status = 500 ∧
    (handle_transcribe envBase initState reqBadJson).1.body =
      .transcribe { success := false, text := ""
                    error := some "Expecting value: line 1 column 1 (char 0)" } ∧
    (handle_transcribe envBase initState reqBadJson).2 = initState :=
  ⟨rfl, rfl, rfl⟩

/-- C10: a JSON `/transcribe` request without a non-empty `audio` key is
answered with HTTP 200 and the body
`{"success": false, "error": "Missing audio field", "text": ""}`, with no
backend load attempted, no engine invocation, and the slot unchanged. -/
theorem missing_audio_short_circuit (env : ServerEnv) (st : CacheState)
    (data : JsonData) (req : WireRequest)
    (h1 : strContains req.content_type "multipart/form-data" = false)
    (h2 : strContains req.content_type "application/json" = true)
    (h3 : req.json_parse = .ok data)
    (h4 : truthyO data.audio = false) :
    transcribe_from_json env st data =
      .ok { resp := { success := false, text := "", error := some "Missing audio field" }
            st := st, load_attempted := false, invocation := none } ∧
    handle_transcribe env st req =
      ({ status := 200
         body := .transcribe
           { success := false, text := "", error := some "Missing audio field" } }, st) := by
  have hj : transcribe_from_json env st data =
      .ok { resp := { success := false, text := "", error := some "Missing audio field" }
            st := st, load_attempted := false, invocation := none } := by
    rw [transcribe_from_json, if_pos h4]
  refine ⟨hj, ?_⟩
  simp [handle_transcribe, h1, h2, h3, hj]

theorem missing_audio_short_circuit_witness :
    handle_transcribe envBase initState reqNoAudio =
      ({ status := 200
         body := .transcribe
           { success := false, text := "", error := some "Missing audio field" } },
       initState) :=
  (missing_audio_short_circuit envBase initState { language := some "en" } reqNoAudio
    rfl rfl rfl rfl).2

lemma getLast?_append_one {α : Type} (l : List α) (a : α) :
    (l ++ [a]).getLast? = some a := by
  rw [List.getLast?_append_cons]
  rfl

/-- C8 (amended): the multipart decoder records as the audio payload the
content of the LAST eligible part (form name `audio` or carrying a
filename), and maps each other form name to the content of the LAST part
bearing it — a later duplicate overwrites an earlier one; parts without a
disposition header, header terminator or form name are skipped. -/
theorem multipart_last_occurrence_wins (parts : List MultipartPart) (n : String) :
    (multipart_extract parts).1 =
      ((parts.filter part_is_audio).getLast?).map MultipartPart.content ∧
    (multipart_extract parts).2 n =
      ((parts.filter (part_param_named n)).getLast?).map MultipartPart.content := by
  induction parts using List.reverseRecOn with
  | nil => exact ⟨rfl, rfl⟩
  | append_singleton ps x ih =>
      obtain ⟨ih1, ih2⟩ := ih
      have hstep : multipart_extract (ps ++ [x]) = multipart_step (multipart_extract ps) x := by
        simp [multipart_extract, List.foldl_append]
      rw [hstep, List.filter_append, List.filter_append]
      by_cases hd : x.has_disposition = false
      · have ha : part_is_audio x = false := by simp [part_is_audio, hd]
        have hp : part_param_named n x = false := by simp [part_param_named, hd]
        simp [multipart_step, hd, ha, hp, ih1, ih2]
      · have hd2 : x.has_disposition = true := by simpa using hd
        by_cases hh : x.header_ok = false
        · have ha : part_is_audio x = false := by simp [part_is_audio, hh]
          have hp : part_param_named n x = false := by simp [part_param_named, hh]
          simp [multipart_step, hd, hh, ha, hp, ih1, ih2]
        · have hh2 : x.header_ok = true := by simpa using hh
          cases hnm : x.name with
          | none =>
              have ha : part_is_audio x = false := by simp [part_is_audio, hnm]
              have hp : part_param_named n x = false := by simp [part_param_named, hnm]
              simp [multipart_step, hd, hh, hnm, ha, hp, ih1, ih2]
          | some nm =>
              by_cases haud : nm = "audio" ∨ x.has_filename = true
              · have ha : part_is_audio x = true := by
                  rcases haud with h | h
                  · subst h; simp [part_is_audio, hd2, hh2, hnm]
                  · simp [part_is_audio, hd2, hh2, hnm, h]
                have hp : part_param_named n x = false := by
                  by_cases hn : n = nm
                  · subst hn
                    rcases haud with h | h
                    · simp [part_param_named, h]
                    · simp [part_param_named, h]
                  · simp [part_param_named, hnm, Ne.symm hn]
                simp [multipart_step, hd, hh, hnm, haud, ha, hp, ih2,
                  getLast?_append_one]
              · have hna : ¬(nm = "audio") := fun h => haud (Or.inl h)
                have hnf : x.has_filename = false := by
                  rcases hb : x.has_filename with _ | _
                  · rfl
                  · exact absurd (Or.inr hb) haud
                have ha : part_is_audio x = false := by
                  simp [part_is_audio, hnm, hna, hnf]
                by_cases hn : n = nm
                · subst hn
                  have hp : part_param_named n x = true := by
                    simp [part_param_named, hd2, hh2, hnm, hna, hnf]
                  simp [multipart_step, hd, hh, hnm, haud, dset, ha, hp, ih1,
                    getLast?_append_one]
                · have hp : part_param_named n x = false := by
                    simp [part_param_named, hnm, Ne.symm hn]
                  simp [multipart_step, hd, hh, hnm, haud, dset, hn, ha, hp, ih1, ih2]

/-- C8 (counterexample): with the form field `language` duplicated (`en`
then `fr`), the decoded parameter value is the LAST occurrence `fr`, not
the first occurrence `en` — refuting first-occurrence-wins. -/
theorem duplicate_field_counterexample :
    (partsDup.filter (part_param_named "language")).head?.map MultipartPart.content
      = some "en" ∧
    (multipart_extract partsDup).2 "language" = some "fr" :=
  ⟨rfl, rfl⟩

end JustSay
